import Mathlib

/-!
Verification of the resource-governance core of the ResultMarketing CRM
backend: recurrence scheduling, contact-quota enforcement, the
spreadsheet-import pipeline, the in-memory job tracker, the sliding-window
rate limiter, and the concurrency discipline of the contact counter.

The definitions below are shallow embeddings of the JavaScript source
(`src/routes/reminders.js`, `src/routes/chat.js`, `src/routes/contacts.js`,
`src/services/supabase.js`, and the auth / rate-limit middleware).  Calendar
arithmetic models ECMAScript `Date` normalization (proleptic Gregorian,
UTC); times of day are carried unchanged by every operation modelled here
and are therefore omitted from the date type.
-/

namespace ResultMarketing

/-! ## Calendar model (ECMAScript `Date` semantics)

`reminders.js` mutates dates with `setDate`, `setMonth` and `setFullYear`.
ECMAScript normalizes out-of-range fields through `MakeDay`: the month index
is reduced modulo 12 into the year (floor division), and a day count larger
than the month length rolls into the following months.  Months are 0-based
(0 = January) exactly as in JavaScript. -/

/-- A calendar date in the proleptic Gregorian calendar; `month` is 0-based
as in JavaScript. -/
structure CivilDate where
  year : Int
  month : Nat
  day : Nat
deriving DecidableEq

/-- Gregorian leap-year rule, as implemented by ECMAScript `Date`. -/
def isLeapYear (y : Int) : Bool :=
  (y % 4 == 0 && y % 100 != 0) || y % 400 == 0

/-- Number of days of month `m` (0-based) in year `y`; months outside
`0..11` never arise after index normalization and default to 31. -/
def daysInMonth (y : Int) (m : Nat) : Nat :=
  if m = 1 then (if isLeapYear y then 29 else 28)
  else if m = 3 ∨ m = 5 ∨ m = 8 ∨ m = 10 then 30
  else 31

/-- Step from month `m` of year `y` to the following month. -/
def nextMonth (y : Int) (m : Nat) : Int × Nat :=
  if m = 11 then (y + 1, 0) else (y, m + 1)

/-- ECMAScript day normalization: a day count exceeding the month length
rolls into the following months (`MakeDay`). -/
def normalizeDay (y : Int) (m : Nat) (d : Nat) : CivilDate :=
  if d ≤ daysInMonth y m then ⟨y, m, d⟩
  else normalizeDay (nextMonth y m).1 (nextMonth y m).2 (d - daysInMonth y m)
termination_by d
decreasing_by
  have h28 : 28 ≤ daysInMonth y m := by
    unfold daysInMonth
    split_ifs <;> omega
  omega

/-- The successor of a calendar date. -/
def nextDay (dt : CivilDate) : CivilDate :=
  if dt.day < daysInMonth dt.year dt.month then ⟨dt.year, dt.month, dt.day + 1⟩
  else ⟨(nextMonth dt.year dt.month).1, (nextMonth dt.year dt.month).2, 1⟩

/-- Model of `date.setDate(date.getDate() + k)` in `calculateNextRecurrence`
(`reminders.js`): add `k` to the day field, then normalize. -/
def setDatePlus (dt : CivilDate) (k : Nat) : CivilDate :=
  normalizeDay dt.year dt.month (dt.day + k)

/-- Model of `date.setMonth(date.getMonth() + k)`: the month index is
reduced into the year with floor division (`Int.ediv`, the ECMAScript
`MakeDay` rule), then the unchanged day-of-month is normalized. -/
def setMonthPlus (dt : CivilDate) (k : Nat) : CivilDate :=
  normalizeDay ((dt.year * 12 + dt.month + k) / 12)
    ((dt.year * 12 + dt.month + k) % 12).toNat dt.day

/-- Model of `date.setFullYear(date.getFullYear() + k)`: the year moves,
month and day stay and the day is normalized (Feb 29 of a leap year lands
on Mar 1 of a non-leap year). -/
def setYearPlus (dt : CivilDate) (k : Nat) : CivilDate :=
  normalizeDay (dt.year + k) dt.month dt.day

/-- Shallow embedding of `calculateNextRecurrence(currentDate, recurrence)`
(`reminders.js`): the `switch` over the recurrence rule; any rule outside
the six known ones (including a null rule) hits `default` and returns null. -/
def calculateNextRecurrence (currentDate : CivilDate) (recurrence : Option String) :
    Option CivilDate :=
  match recurrence with
  | some "daily" => some (setDatePlus currentDate 1)
  | some "weekly" => some (setDatePlus currentDate 7)
  | some "biweekly" => some (setDatePlus currentDate 14)
  | some "monthly" => some (setMonthPlus currentDate 1)
  | some "quarterly" => some (setMonthPlus currentDate 3)
  | some "yearly" => some (setYearPlus currentDate 1)
  | _ => none

/-- A date whose fields are in range. -/
def ValidDate (dt : CivilDate) : Prop :=
  dt.month < 12 ∧ 1 ≤ dt.day ∧ dt.day ≤ daysInMonth dt.year dt.month

instance : DecidablePred ValidDate := fun dt => by
  unfold ValidDate; infer_instance

/-- The recurrence rules recognized by the `switch` in
`calculateNextRecurrence`. -/
def knownRecurrences : List String :=
  ["daily", "weekly", "biweekly", "monthly", "quarterly", "yearly"]

/-- Specification-side reading of "adds k days": `k` iterations of the
calendar successor. -/
def specAddDays (k : Nat) (dt : CivilDate) : CivilDate :=
  nextDay^[k] dt

/-! ## Reminders (`reminders.js`) -/

/-- A reminder row as read and written by `PUT /api/reminders/:id/complete`. -/
structure Reminder where
  id : Nat
  user_id : Nat
  title : String
  description : Option String
  contact_id : Option Nat
  due_date : CivilDate
  type : String
  priority : String
  status : String
  recurrence : Option String
  notification_minutes : Option Nat
  completed_at : Option Int
  completion_notes : Option String
deriving DecidableEq

/-- The successor row inserted by the completion route for a recurring
reminder: the source `insert` call copies `title`, `description`,
`contact_id`, `type`, `priority`, `recurrence` and `notification_minutes`,
sets `status` to pending and `due_date` to the computed next date. -/
def successorReminder (freshId userId : Nat) (data : Reminder) (nextDue : CivilDate) :
    Reminder :=
  { id := freshId, user_id := userId, title := data.title,
    description := data.description, contact_id := data.contact_id,
    due_date := nextDue, type := data.type, priority := data.priority,
    status := "pending", recurrence := data.recurrence,
    notification_minutes := data.notification_minutes,
    completed_at := none, completion_notes := none }

/-- The `updates` object applied to the completed reminder: status
`completed`, completion timestamp, and completion notes when supplied. -/
def completedRow (r : Reminder) (notes : Option String) (now : Int) : Reminder :=
  { r with
    status := "completed"
    completed_at := some now
    completion_notes :=
      (match notes with | some n => some n | none => r.completion_notes) }

/-- Shallow embedding of `PUT /api/reminders/:id/complete`: update the
matching reminder to `completed` (retaining the row), then, when
`data.recurrence` is set and `calculateNextRecurrence` yields a date, insert
exactly one pending successor with a storage-assigned `freshId`.  Returns
the new table and the updated row (`none` models the 404 branch). -/
def completeReminder (db : List Reminder) (userId id : Nat) (notes : Option String)
    (now : Int) (freshId : Nat) : List Reminder × Option Reminder :=
  match db.find? (fun r => r.id == id && r.user_id == userId) with
  | none => (db, none)
  | some r =>
    let u : Reminder := completedRow r notes now
    let db1 := db.map (fun s => if s.id == id && s.user_id == userId then u else s)
    match r.recurrence with
    | none => (db1, some u)
    | some rule =>
      match calculateNextRecurrence u.due_date (some rule) with
      | some nextDue => (db1 ++ [successorReminder freshId userId u nextDue], some u)
      | none => (db1, some u)

/-! ## Quota middleware and contact-creating routes
(auth middleware `checkContactLimit`, `contacts.js`, `chat.js`) -/

/-- The tenant profile fields the quota middleware reads. -/
structure Profile where
  subscription_plan : Option String
  contact_count : Nat
deriving DecidableEq

/-- The static `planLimits` table inside `checkContactLimit`. -/
def planLimits (plan : String) : Option Nat :=
  match plan with
  | "free" => some 50
  | "trial" => some 50
  | "base" => some 250000
  | "enterprise" => some 1000000
  | _ => none

/-- `planLimits[userPlan] || planLimits.free` with
`userPlan = profile?.subscription_plan || 'free'`. -/
def maxContactsFor (profile : Option Profile) : Nat :=
  ((planLimits ((profile.bind Profile.subscription_plan).getD "free")).getD 50)

/-- `req.contactLimit` attached by the middleware on success. -/
structure ContactLimitInfo where
  current : Nat
  max : Nat
  remaining : Nat
deriving DecidableEq

/-- Error codes of the contact-creating routes relevant to quota checking. -/
inductive ErrCode
  | CONTACT_LIMIT_REACHED
  | CONTACT_LIMIT_EXCEEDED
  | INVALID_INPUT
  | TOO_MANY_CONTACTS
  | VALIDATION_ERROR
  | DUPLICATE_CONTACT
deriving DecidableEq

/-- Shallow embedding of the `checkContactLimit` middleware: it rejects with
`CONTACT_LIMIT_REACHED` exactly when the current count has reached the plan
ceiling, and otherwise attaches `{current, max, remaining}`.  The size of
the write being attempted is not consulted here. -/
def checkContactLimit (profile : Option Profile) : Except ErrCode ContactLimitInfo :=
  let maxContacts := maxContactsFor profile
  let currentCount := (profile.map Profile.contact_count).getD 0
  if currentCount ≥ maxContacts then .error .CONTACT_LIMIT_REACHED
  else .ok ⟨currentCount, maxContacts, maxContacts - currentCount⟩

/-- Quota-relevant skeleton of `POST /api/contacts`: middleware, then body
validation and the repository duplicate probe (abstracted as booleans, in
source order), then a single insert.  `.ok n` means `n` contacts inserted. -/
def createContact (profile : Option Profile) (validationOk : Bool)
    (hasDuplicate : Bool) : Except ErrCode Nat :=
  match checkContactLimit profile with
  | .error e => .error e
  | .ok _ =>
    if !validationOk then .error .VALIDATION_ERROR
    else if hasDuplicate then .error .DUPLICATE_CONTACT
    else .ok 1

/-- Quota-relevant skeleton of `POST /api/contacts/bulk`: middleware, then
the route checks in source order (non-empty array, 500-row cap, remaining
headroom), then the batch insert of all `n` prepared contacts. -/
def bulkCreateContacts (profile : Option Profile) (n : Nat) : Except ErrCode Nat :=
  match checkContactLimit profile with
  | .error e => .error e
  | .ok lim =>
    if n = 0 then .error .INVALID_INPUT
    else if n > 500 then .error .TOO_MANY_CONTACTS
    else if n > lim.remaining then .error .CONTACT_LIMIT_EXCEEDED
    else .ok n

/-- Contacts inserted by the `POST /api/uploads/namecard` flow (chat.js).
The route middleware chain is `authenticateToken, uploadRateLimit,
namecardUpload` — it contains no `checkContactLimit` — and on successful
extraction `processNamecard` inserts one contact and increments
`contact_count` without reading the profile, so the result does not depend
on the quota state. -/
def namecardInsertedContacts (_profile : Option Profile) (extractOk : Bool) : Nat :=
  if extractOk then 1 else 0

/-! ## Concurrency model of the contact counter

`incrementContactCount` (`services/supabase.js`) first calls the
`increment_contact_count` RPC — a single storage-level increment — and on an
RPC error falls back to `getUserProfile` followed by `updateUserProfile`
with `contact_count` computed in application memory.  `POST /api/contacts`
reads the counter in `checkContactLimit` and later inserts and increments.
Concurrent executions are modelled as interleavings of the primitive
storage accesses. -/

/-- One primitive storage access. -/
inductive CounterOp
  /-- The `increment_contact_count` RPC: one atomic add at the store. -/
  | rpcIncrement (k : Nat)
  /-- Fallback and middleware path: read `contact_count` into the caller. -/
  | readCount
  /-- Fallback path: write back the value read earlier plus `k`. -/
  | writeCountPlus (k : Nat)
  /-- `POST /api/contacts` tail: insert and increment, but only when the
  earlier profile read was below the ceiling (`checkContactLimit`). -/
  | admitInsert (maxContacts : Nat)
deriving DecidableEq

/-- Shared counter plus each concurrent caller's last profile read. -/
structure CounterState (n : Nat) where
  counter : Nat
  locals : Fin n → Nat

/-- Effect of one storage access performed by caller `who`. -/
def stepCounter {n : Nat} (s : CounterState n) (who : Fin n) : CounterOp → CounterState n
  | .rpcIncrement k => { s with counter := s.counter + k }
  | .readCount => { s with locals := Function.update s.locals who s.counter }
  | .writeCountPlus k => { s with counter := s.locals who + k }
  | .admitInsert maxContacts =>
      if s.locals who < maxContacts then { s with counter := s.counter + 1 } else s

/-- Run a schedule of storage accesses. -/
def execCounter {n : Nat} (s : CounterState n) : List (Fin n × CounterOp) → CounterState n
  | [] => s
  | (w, op) :: rest => execCounter (stepCounter s w op) rest

/-- Storage accesses of one `incrementContactCount` call whose RPC succeeds. -/
def rpcCommitProg {n : Nat} (who : Fin n) (k : Nat) : List (Fin n × CounterOp) :=
  [(who, .rpcIncrement k)]

/-- Storage accesses of one `incrementContactCount` call whose RPC errors:
the manual read-modify-write fallback. -/
def fallbackCommitProg {n : Nat} (who : Fin n) (k : Nat) : List (Fin n × CounterOp) :=
  [(who, .readCount), (who, .writeCountPlus k)]

/-- Storage accesses of one `POST /api/contacts` request: the middleware
profile read, then the guarded insert-and-increment. -/
def createRequestProg {n : Nat} (who : Fin n) (maxContacts : Nat) :
    List (Fin n × CounterOp) :=
  [(who, .readCount), (who, .admitInsert maxContacts)]

/-- `Interleaving xs ys zs`: `zs` is an order-preserving merge of the two
instruction streams `xs` and `ys`. -/
inductive Interleaving {α : Type} : List α → List α → List α → Prop
  | nil : Interleaving [] [] []
  | left {x : α} {xs ys zs : List α} :
      Interleaving xs ys zs → Interleaving (x :: xs) ys (x :: zs)
  | right {y : α} {xs ys zs : List α} :
      Interleaving xs ys zs → Interleaving xs (y :: ys) (y :: zs)

/-! ## Sliding-window rate limiter (`SlidingWindowRateLimiter`, rate-limit
middleware) -/

/-- The limiter state for one key: configuration plus the scores
(timestamps) of the members of the Redis sorted set. -/
structure SlidingWindow where
  windowMs : Int
  max : Nat
  entries : List Int
deriving DecidableEq

/-- One call of `isAllowed(key)` at time `now`: purge scores in
`[0, now - windowMs]` (`zremrangebyscore redisKey 0 windowStart`), count the
survivors (`zcard`), reject when the count has reached `max`, otherwise
record the new timestamp (`zadd`) and report the leftover budget. -/
def isAllowed (rl : SlidingWindow) (now : Int) : (Bool × Nat) × SlidingWindow :=
  let windowStart := now - rl.windowMs
  let kept := rl.entries.filter (fun t => !(decide (0 ≤ t) && decide (t ≤ windowStart)))
  if kept.length ≥ rl.max then ((false, 0), { rl with entries := kept })
  else ((true, rl.max - kept.length - 1), { rl with entries := kept ++ [now] })

/-- Run a sequence of `isAllowed` calls at the given times. -/
def runCalls (rl : SlidingWindow) : List Int → List (Bool × Nat) × SlidingWindow
  | [] => ([], rl)
  | t :: ts =>
    let r := isAllowed rl t
    let rest := runCalls r.2 ts
    (r.1 :: rest.1, rest.2)

/-! ## Spreadsheet import pipeline (`chat.js`) -/

/-- A parsed spreadsheet row: cell values keyed by header name, as produced
by `XLSX.utils.sheet_to_json`. -/
def Row := List (String × String)

/-- JavaScript `String.prototype.trim`: strip whitespace at both ends. -/
def jsTrim (s : String) : String :=
  String.mk
    (((s.toList.dropWhile Char.isWhitespace).reverse.dropWhile Char.isWhitespace).reverse)

/-- JavaScript `String.prototype.toLowerCase` on the ASCII range the email
fields use. -/
def jsToLower (s : String) : String :=
  String.mk (s.toList.map Char.toLower)

/-- JavaScript `String.prototype.startsWith`. -/
def strStartsWith (s pre : String) : Bool :=
  pre.toList.isPrefixOf s.toList

/-- JavaScript `String.prototype.slice(n)` for a non-negative index. -/
def strDrop (s : String) (n : Nat) : String :=
  String.mk (s.toList.drop n)

/-- JavaScript `String.prototype.length` (code units; the modelled strings
are ASCII). -/
def strLength (s : String) : Nat :=
  s.toList.length

/-- `extractField(row, columnName)`: null for an unset mapping, otherwise
the trimmed cell text, null when the column is absent from the row. -/
def extractField (row : Row) (columnName : Option String) : Option String :=
  match columnName with
  | none => none
  | some c => if c = "" then none else (List.lookup c row).map jsTrim

/-- The email test `/^[^\s@]+@[^\s@]+\.[^\s@]+$/` of `normalizeEmail`,
unfolded over characters: no whitespace, exactly one `@` with a non-empty
local part, and a dot inside the domain with at least one character on each
side. -/
def validEmail (s : String) : Bool :=
  let cs := s.toList
  (!cs.any Char.isWhitespace) &&
  (cs.count '@' == 1) &&
  (cs.takeWhile (fun c => !(c == '@'))).length > 0 &&
  ((((cs.dropWhile (fun c => !(c == '@'))).drop 1).drop 1).dropLast.contains '.')

/-- `normalizeEmail` (chat.js): null stays null, otherwise lowercase, trim
and regex-validate; a malformed value becomes null. -/
def normalizeEmail (email : Option String) : Option String :=
  match email with
  | none => none
  | some e =>
    if e = "" then none
    else
      let cleaned := jsTrim (jsToLower e)
      if validEmail cleaned then some cleaned else none

/-- `normalizePhone` (chat.js): keep digits and plus signs, coerce the
Malaysian local formats onto `+60`, and require at least 10 characters. -/
def normalizePhone (phone : Option String) : Option String :=
  match phone with
  | none => none
  | some p =>
    if p = "" then none
    else
      let cleaned := String.mk (p.toList.filter (fun c => c.isDigit || c == '+'))
      let converted :=
        if strStartsWith cleaned "0" then "+60" ++ strDrop cleaned 1
        else if strStartsWith cleaned "60" && !strStartsWith cleaned "+" then
          "+" ++ cleaned
        else if !strStartsWith cleaned "+" && strLength cleaned ≥ 9 then
          "+60" ++ cleaned
        else cleaned
      if strLength converted ≥ 10 then some converted else none

/-- The column mappings supplied with the import request (or produced by
the AI analysis on the asynchronous path). -/
structure ColumnMappings where
  name : Option String
  email : Option String
  phone : Option String
  company : Option String
  position : Option String
  industry : Option String
  notes : Option String
deriving DecidableEq

/-- A contact entity as built by the import paths. -/
structure Contact where
  user_id : Nat
  name : String
  email : Option String
  phone : Option String
  company : Option String
  position : Option String
  industry : Option String
  category : String
  notes : Option String
  source : String
  status : String
deriving DecidableEq

/-- The per-row transform of `POST /api/uploads/spreadsheet/import`. -/
def rowToContact (userId : Nat) (m : ColumnMappings) (defaultCategory : String)
    (row : Row) : Contact :=
  { user_id := userId
    name :=
      (match extractField row m.name with
       | some s => if s = "" then "Unknown" else s
       | none => "Unknown")
    email := normalizeEmail (extractField row m.email)
    phone := normalizePhone (extractField row m.phone)
    company := extractField row m.company
    position := extractField row m.position
    industry := extractField row m.industry
    category := defaultCategory
    notes := extractField row m.notes
    source := "spreadsheet_import"
    status := "active" }

/-- The `no identifiable information` test: name fell back to `Unknown` and
both normalized email and phone are null. -/
def unidentifiable (c : Contact) : Bool :=
  c.name == "Unknown" && c.email.isNone && c.phone.isNone

/-- The rows that reach the `contacts` array (loop of the synchronous
route): transformed and not classified as an error row. -/
def importContacts (userId : Nat) (m : ColumnMappings) (cat : String)
    (rows : List Row) : List Contact :=
  (rows.map (rowToContact userId m cat)).filter (fun c => !unidentifiable c)

/-- Number of rows pushed onto the `errors` list by the same loop.  (The
source also records a row number and reason per entry; only the count
enters the response counters.) -/
def importErrorCount (userId : Nat) (m : ColumnMappings) (cat : String)
    (rows : List Row) : Nat :=
  ((rows.map (rowToContact userId m cat)).filter (fun c => unidentifiable c)).length

/-- The duplicate probe of the synchronous import: a contact is a duplicate
when its email is among the tenant's existing emails or its phone among the
existing phones.  (Null entries of the existing sets can never equal a
non-null normalized value and are dropped from the model.) -/
def isDupe (existingEmails existingPhones : List String) (c : Contact) : Bool :=
  (match c.email with | some e => existingEmails.contains e | none => false) ||
  (match c.phone with | some p => existingPhones.contains p | none => false)

/-- Response of the synchronous import route. -/
inductive ImportResponse
  /-- 403 `CONTACT_LIMIT_EXCEEDED`: `remaining` headroom against the raw
  row count, checked before anything is transformed or inserted. -/
  | limitExceeded (remaining total : Nat)
  /-- 200 with the counters `{imported, total, skipped, duplicates,
  errors}`. -/
  | ok (imported total skipped duplicates errors : Nat)
deriving DecidableEq

/-- Shallow embedding of `POST /api/uploads/spreadsheet/import` after its
middleware: the headroom check on the raw row count comes first; then the
row transform, the duplicate filter (when `skipDuplicates`; filtering an
empty list is the identity, so the `contacts.length > 0` guard of the
source is absorbed), the batch insert (assumed to succeed — a storage
failure surfaces as a 500 with no counters), and the response counters
exactly as assembled in the source. -/
def spreadsheetImport (lim : ContactLimitInfo) (userId : Nat) (m : ColumnMappings)
    (cat : String) (skipDuplicates : Bool) (existingEmails existingPhones : List String)
    (rows : List Row) : ImportResponse :=
  if rows.length > lim.remaining then .limitExceeded lim.remaining rows.length
  else
    let contacts := importContacts userId m cat rows
    let errors := importErrorCount userId m cat rows
    let duplicates :=
      if skipDuplicates then
        (contacts.filter (fun c => isDupe existingEmails existingPhones c)).length
      else 0
    let finalContacts :=
      if skipDuplicates then
        contacts.filter (fun c => !isDupe existingEmails existingPhones c)
      else contacts
    .ok finalContacts.length rows.length
      (rows.length - finalContacts.length - errors) duplicates errors

/-- The per-row transform of the asynchronous `processSpreadsheet` path:
category fixed to `Lead` and no notes field in the inserted object. -/
def rowToContactAsync (userId : Nat) (m : ColumnMappings) (row : Row) : Contact :=
  { rowToContact userId m "Lead" row with notes := none }

/-! ## Background job tracker (`processingJobs` in `chat.js`) -/

/-- Job status strings used in `chat.js`. -/
inductive JobStatus
  | processing
  | completed
  | failed
deriving DecidableEq

/-- Payload stored in a completed job's `result` field. -/
inductive JobResult
  /-- `{imported, total, skipped}` of a spreadsheet import. -/
  | spreadsheet (imported total skipped : Nat)
  /-- `{imported: 0, total}` when nothing was valid to insert. -/
  | emptySpreadsheet (total : Nat)
  /-- `{contact, extracted, confidence}` of a namecard scan. -/
  | namecard (contact : Contact) (confidence : Nat)
deriving DecidableEq

/-- One entry of the `processingJobs` map. -/
structure Job where
  status : JobStatus
  progress : Nat
  message : String
  result : Option JobResult
  error : Option String
  createdAt : Int
deriving DecidableEq

/-- The `processingJobs` map (`new Map()` keyed by uuid).  ISO `createdAt`
strings are order-isomorphic to their epoch value and modelled as `Int`. -/
def JobMap := List (String × Job)

/-- `processingJobs.set(jobId, job)`: overwrite the binding for `jobId`. -/
def jobSet (m : JobMap) (id : String) (j : Job) : JobMap :=
  (id, j) :: m.eraseP (fun p => p.1 == id)

/-- `processingJobs.get(jobId)`. -/
def getJob (m : JobMap) (id : String) : Option Job :=
  (m.find? (fun p => p.1 == id)).map Prod.snd

/-- The job object stored by `POST /api/uploads/spreadsheet` and
`POST /api/uploads/namecard` on submission. -/
def newJob (message : String) (now : Int) : Job :=
  { status := .processing, progress := 0, message := message,
    result := none, error := none, createdAt := now }

/-- Job creation on upload submission. -/
def createJob (m : JobMap) (id : String) (message : String) (now : Int) : JobMap :=
  jobSet m id (newJob message now)

/-- Every terminal `processingJobs.set` of `processSpreadsheet` and
`processNamecard`, with its literal `status`, `progress`, `result` and
`error` fields: analysis failure, import success, nothing-to-import
success, spreadsheet catch-all failure, extraction failure, namecard
success, namecard catch-all failure. -/
def terminalJobWrites (createdAt : Int) (analysisErr caughtErr : String)
    (imported total skipped : Nat) (contact : Contact) (confidence : Nat) : List Job :=
  [ { status := .failed, progress := 100, message := "Failed to analyze spreadsheet",
      result := none, error := some analysisErr, createdAt := createdAt },
    { status := .completed, progress := 100,
      message := s!"Successfully imported {imported} contacts",
      result := some (.spreadsheet imported total skipped), error := none,
      createdAt := createdAt },
    { status := .completed, progress := 100, message := "No valid contacts found to import",
      result := some (.emptySpreadsheet total), error := none, createdAt := createdAt },
    { status := .failed, progress := 100, message := "Processing failed",
      result := none, error := some caughtErr, createdAt := createdAt },
    { status := .failed, progress := 100, message := "Failed to extract text",
      result := none, error := some caughtErr, createdAt := createdAt },
    { status := .completed, progress := 100, message := "Contact created successfully",
      result := some (.namecard contact confidence), error := none, createdAt := createdAt },
    { status := .failed, progress := 100, message := "Processing failed",
      result := none, error := some caughtErr, createdAt := createdAt } ]

/-- The cleanup sweep installed with `setInterval` (every 15 minutes):
delete every job whose `createdAt` lies more than one hour (3600000 ms)
before `now`. -/
def sweepJobs (now : Int) (m : JobMap) : JobMap :=
  m.filter (fun p => !(decide (p.2.createdAt < now - 3600000)))

/-- The asynchronous `processSpreadsheet` terminal result for a successful
run: mappings come from the AI analysis, rows failing the identifiability
filter are dropped, the batch is truncated with
`contacts.slice(0, remaining)` where
`remaining = contactLimit?.remaining || Infinity` (so a zero headroom also
disables truncation, JavaScript falsiness), and no duplicate detection is
performed. -/
def processSpreadsheetResult (contactLimit : Option ContactLimitInfo) (userId : Nat)
    (m : ColumnMappings) (rows : List Row) : JobResult :=
  let contacts := (rows.map (rowToContactAsync userId m)).filter (fun c => !unidentifiable c)
  let toInsert :=
    match contactLimit with
    | some lim => if lim.remaining = 0 then contacts else contacts.take lim.remaining
    | none => contacts
  if toInsert.length > 0 then
    .spreadsheet toInsert.length rows.length (rows.length - toInsert.length)
  else .emptySpreadsheet rows.length

/-- The authenticated caller attached by `authenticateToken`. -/
structure AuthUser where
  id : Nat
deriving DecidableEq

/-- Response of `GET /api/uploads/status/:jobId`. -/
inductive StatusResponse
  /-- 404 `JOB_NOT_FOUND` (evicted and never-existed are identical). -/
  | notFound
  /-- 200 with `{jobId, ...job}`. -/
  | okSnapshot (jobId : String) (job : Job)
deriving DecidableEq

/-- Shallow embedding of `GET /api/uploads/status/:jobId`: after
authentication the handler reads only the path parameter and the shared
`processingJobs` map; `req.user` is bound by the middleware but never
consulted, and the map is not scoped by tenant. -/
def statusHandler (m : JobMap) (jobId : String) (_user : AuthUser) : StatusResponse :=
  match getJob m jobId with
  | none => .notFound
  | some j => .okSnapshot jobId j

/-- Specification-side plan table: free and trial 50, base 250000,
enterprise 1000000, an unknown or missing plan falls back to the free
ceiling. -/
def specPlanMax (plan : Option String) : Nat :=
  match plan with
  | some "free" => 50
  | some "trial" => 50
  | some "base" => 250000
  | some "enterprise" => 1000000
  | _ => 50

/-- Specification-side terminal-write predicate: status completed or
failed, progress forced to 100, a result on completion, an error on
failure. -/
def terminalWriteOk (j : Job) : Bool :=
  (j.status == .completed || j.status == .failed) && j.progress == 100 &&
  (!(j.status == .completed) || j.result.isSome) &&
  (!(j.status == .failed) || j.error.isSome)

/-! ## Concrete instances used to exercise the models -/

/-- The §8.6 scenario mappings: name, email and phone columns. -/
def scenarioMappings : ColumnMappings :=
  ⟨some "Name", some "Email", some "Phone", none, none, none, none⟩

/-- The §8.6 scenario sheet: five rows, the first of which repeats an
existing email. -/
def scenarioRows : List Row :=
  [[("Name", "Alice"), ("Email", "a@x.com")],
   [("Name", "Bob"), ("Email", "b@x.com")],
   [("Name", "Carol"), ("Email", "c@x.com")],
   [("Name", "Dan"), ("Email", "d@x.com")],
   [("Name", "Eve"), ("Email", "e@x.com")]]

/-- The §8.6 scenario quota: base plan, 249999 of 250000 used. -/
def scenarioLimit : ContactLimitInfo := ⟨249999, 250000, 1⟩

/-- A recurring weekly reminder. -/
def demoReminder : Reminder :=
  { id := 1, user_id := 7, title := "follow up", description := some "call back",
    contact_id := some 3, due_date := ⟨2025, 0, 15⟩, type := "call",
    priority := "high", status := "pending", recurrence := some "weekly",
    notification_minutes := some 30, completed_at := none, completion_notes := none }

/-- Interleaving of two fallback commits that loses one update: both read
the counter before either writes. -/
def lostSchedule : List (Fin 2 × CounterOp) :=
  [(0, .readCount), (1, .readCount), (0, .writeCountPlus 1), (1, .writeCountPlus 1)]

/-- Interleaving of two create requests against a tenant one below the
ceiling: both middleware reads see headroom, both inserts are admitted. -/
def racedSchedule : List (Fin 2 × CounterOp) :=
  [(0, .readCount), (1, .readCount), (0, .admitInsert 50), (1, .admitInsert 50)]

/-- A job freshly created at time 0. -/
def demoJob : Job := newJob "Starting file processing..." 0

end ResultMarketing

namespace ResultMarketing

theorem daysInMonth_ge_28 (y : Int) (m : Nat) : 28 ≤ daysInMonth y m := by
  unfold daysInMonth; split_ifs <;> omega

theorem daysInMonth_le_31 (y : Int) (m : Nat) : daysInMonth y m ≤ 31 := by
  unfold daysInMonth; split_ifs <;> omega

theorem nextMonth_snd_lt (y : Int) (m : Nat) (h : m < 12) : (nextMonth y m).2 < 12 := by
  unfold nextMonth
  split_ifs with hm
  · simp
  · simp
    omega

theorem normalizeDay_of_le (y : Int) (m : Nat) (d : Nat) (h : d ≤ daysInMonth y m) :
    normalizeDay y m d = ⟨y, m, d⟩ := by
  rw [normalizeDay]; simp [h]

theorem normalizeDay_valid (y : Int) (m : Nat) (d : Nat) (h1 : 1 ≤ d) (h2 : m < 12) :
    ValidDate (normalizeDay y m d) := by
  induction y, m, d using normalizeDay.induct with
  | case1 y m d hle =>
    rw [normalizeDay_of_le y m d hle]
    exact ⟨h2, h1, hle⟩
  | case2 y m d hgt ih =>
    rw [normalizeDay, if_neg hgt]
    have h28 := daysInMonth_ge_28 y m
    exact ih (by omega) (nextMonth_snd_lt y m h2)

theorem normalizeDay_succ (y : Int) (m : Nat) (d : Nat) (h1 : 1 ≤ d) :
    normalizeDay y m (d + 1) = nextDay (normalizeDay y m d) := by
  induction y, m, d using normalizeDay.induct with
  | case1 y m d hle =>
    rw [normalizeDay_of_le y m d hle]
    by_cases h : d + 1 ≤ daysInMonth y m
    · rw [normalizeDay_of_le y m (d + 1) h]
      unfold nextDay
      simp only []
      rw [if_pos (by omega)]
    · have hd : d = daysInMonth y m := by omega
      rw [normalizeDay, if_neg (by omega)]
      have h28 := daysInMonth_ge_28 (nextMonth y m).1 (nextMonth y m).2
      rw [normalizeDay_of_le _ _ _ (by omega)]
      unfold nextDay
      simp only []
      rw [if_neg (by omega)]
      simp [hd]
  | case2 y m d hgt ih =>
    have h28 := daysInMonth_ge_28 y m
    rw [normalizeDay, if_neg (by omega)]
    rw [show d + 1 - daysInMonth y m = (d - daysInMonth y m) + 1 by omega]
    rw [ih (by omega)]
    conv_rhs => rw [normalizeDay, if_neg hgt]

theorem normalizeDay_id_of_valid (dt : CivilDate) (h : ValidDate dt) :
    normalizeDay dt.year dt.month dt.day = dt := by
  obtain ⟨h1, h2, h3⟩ := h
  rw [normalizeDay_of_le _ _ _ h3]

theorem setDatePlus_iterate (dt : CivilDate) (k : Nat) (h : 1 ≤ dt.day) :
    setDatePlus dt k = nextDay^[k] (normalizeDay dt.year dt.month dt.day) := by
  induction k with
  | zero => simp [setDatePlus]
  | succ n ih =>
    unfold setDatePlus at *
    rw [show dt.day + (n + 1) = (dt.day + n) + 1 by omega]
    rw [normalizeDay_succ _ _ _ (by omega), ih]
    rw [Function.iterate_succ_apply']

theorem setDatePlus_eq_spec (dt : CivilDate) (k : Nat) (h : ValidDate dt) :
    setDatePlus dt k = specAddDays k dt := by
  rw [setDatePlus_iterate dt k h.2.1, normalizeDay_id_of_valid dt h, specAddDays]

theorem valid_setDatePlus (dt : CivilDate) (k : Nat) (h : ValidDate dt) :
    ValidDate (setDatePlus dt k) := by
  unfold setDatePlus
  exact normalizeDay_valid _ _ _ (by have := h.2.1; omega) h.1

theorem setMonthPlus_of_day_le (dt : CivilDate) (k : Nat) (h1 : dt.day ≤ 28) :
    setMonthPlus dt k =
      ⟨(dt.year * 12 + dt.month + k) / 12,
        ((dt.year * 12 + dt.month + k) % 12).toNat, dt.day⟩ := by
  unfold setMonthPlus
  exact normalizeDay_of_le _ _ _ (h1.trans (daysInMonth_ge_28 _ _))

theorem monthStep_iterate (dt : CivilDate) (hm : dt.month < 12) (h1 : dt.day ≤ 28) (n : Nat) :
    (fun x => setMonthPlus x 1)^[n] dt =
      ⟨(dt.year * 12 + dt.month + n) / 12,
        ((dt.year * 12 + dt.month + n) % 12).toNat, dt.day⟩ := by
  induction n with
  | zero =>
    simp only [Function.iterate_zero, id_eq]
    have h2 : (dt.year * 12 + dt.month + ((0 : Nat) : Int)) / 12 = dt.year := by omega
    have h3 : ((dt.year * 12 + dt.month + ((0 : Nat) : Int)) % 12).toNat = dt.month := by
      omega
    rw [h2, h3]
  | succ n ih =>
    rw [Function.iterate_succ_apply', ih]
    rw [setMonthPlus_of_day_le _ _ (by exact h1)]
    simp only [CivilDate.mk.injEq]
    refine ⟨by omega, by omega, trivial⟩

theorem monthStep_twelve (dt : CivilDate) (hv : ValidDate dt) (h28 : dt.day ≤ 28) :
    (fun x => setMonthPlus x 1)^[12] dt = ⟨dt.year + 1, dt.month, dt.day⟩ := by
  have hm := hv.1
  rw [monthStep_iterate dt hm h28 12]
  simp only [CivilDate.mk.injEq]
  refine ⟨by omega, by omega, trivial⟩

theorem setYearPlus_of_day_le (dt : CivilDate) (k : Nat) (h : dt.day ≤ 28) :
    setYearPlus dt k = ⟨dt.year + k, dt.month, dt.day⟩ := by
  unfold setYearPlus
  exact normalizeDay_of_le _ _ _ (h.trans (daysInMonth_ge_28 _ _))

theorem calculateNextRecurrence_none (dt : CivilDate) :
    calculateNextRecurrence dt none = none := rfl

theorem calculateNextRecurrence_unknown (dt : CivilDate) (r : String)
    (h : r ∉ knownRecurrences) :
    calculateNextRecurrence dt (some r) = none := by
  simp only [knownRecurrences, List.mem_cons, List.not_mem_nil, or_false] at h
  push_neg at h
  obtain ⟨h1, h2, h3, h4, h5, h6⟩ := h
  unfold calculateNextRecurrence
  split <;> simp_all

theorem setDatePlus_twice (dt : CivilDate) (a b : Nat) (h : ValidDate dt) :
    setDatePlus (setDatePlus dt a) b = setDatePlus dt (a + b) := by
  rw [setDatePlus_eq_spec dt a h,
    setDatePlus_eq_spec _ b (by rw [← setDatePlus_eq_spec dt a h]; exact valid_setDatePlus dt a h),
    setDatePlus_eq_spec dt (a + b) h]
  unfold specAddDays
  rw [Nat.add_comm a b, Function.iterate_add_apply]

/-- C7: the next-occurrence computation is a pure function of the current
due date and the recurrence rule: daily adds 1 day, weekly 7 days, biweekly
14 days (each equal to iterating the calendar successor), monthly adds 1
calendar month and quarterly 3 (month-index arithmetic with the
provider-defined day-overflow normalization), yearly adds 1 year, and every
rule outside this set — including a null rule — returns null. -/
theorem C7_next_occurrence_pure (dt : CivilDate) (hv : ValidDate dt) :
    calculateNextRecurrence dt (some "daily") = some (specAddDays 1 dt) ∧
    calculateNextRecurrence dt (some "weekly") = some (specAddDays 7 dt) ∧
    calculateNextRecurrence dt (some "biweekly") = some (specAddDays 14 dt) ∧
    calculateNextRecurrence dt (some "monthly") = some (setMonthPlus dt 1) ∧
    calculateNextRecurrence dt (some "quarterly") = some (setMonthPlus dt 3) ∧
    calculateNextRecurrence dt (some "yearly") = some (setYearPlus dt 1) ∧
    calculateNextRecurrence dt none = none ∧
    (∀ r : String, r ∉ knownRecurrences → calculateNextRecurrence dt (some r) = none) := by
  refine ⟨?_, ?_, ?_, rfl, rfl, rfl, rfl, fun r hr => calculateNextRecurrence_unknown dt r hr⟩
  · exact congrArg some (setDatePlus_eq_spec dt 1 hv)
  · exact congrArg some (setDatePlus_eq_spec dt 7 hv)
  · exact congrArg some (setDatePlus_eq_spec dt 14 hv)

theorem C7_witness :
    ValidDate ⟨2025, 5, 10⟩ ∧
    (calculateNextRecurrence ⟨2025, 5, 10⟩ (some "daily") =
      some (specAddDays 1 ⟨2025, 5, 10⟩) ∧
    calculateNextRecurrence ⟨2025, 5, 10⟩ (some "weekly") =
      some (specAddDays 7 ⟨2025, 5, 10⟩) ∧
    calculateNextRecurrence ⟨2025, 5, 10⟩ (some "biweekly") =
      some (specAddDays 14 ⟨2025, 5, 10⟩) ∧
    calculateNextRecurrence ⟨2025, 5, 10⟩ (some "monthly") =
      some (setMonthPlus ⟨2025, 5, 10⟩ 1) ∧
    calculateNextRecurrence ⟨2025, 5, 10⟩ (some "quarterly") =
      some (setMonthPlus ⟨2025, 5, 10⟩ 3) ∧
    calculateNextRecurrence ⟨2025, 5, 10⟩ (some "yearly") =
      some (setYearPlus ⟨2025, 5, 10⟩ 1) ∧
    calculateNextRecurrence ⟨2025, 5, 10⟩ none = none ∧
    (∀ r : String, r ∉ knownRecurrences →
      calculateNextRecurrence ⟨2025, 5, 10⟩ (some r) = none)) :=
  ⟨by decide, C7_next_occurrence_pure ⟨2025, 5, 10⟩ (by decide)⟩

/-- C8: applying the weekly step twice equals one biweekly step and equals
adding exactly 14 days; applying the monthly step 12 times equals adding
one year, under the day-of-month overflow proviso (day at most 28, the
Jan 31 family being the documented overflow exception). -/
theorem C8_recurrence_composition (dt : CivilDate) (hv : ValidDate dt) :
    ((calculateNextRecurrence dt (some "weekly")).bind
        (fun d2 => calculateNextRecurrence d2 (some "weekly")) =
      some (specAddDays 14 dt) ∧
     calculateNextRecurrence dt (some "biweekly") = some (specAddDays 14 dt)) ∧
    (dt.day ≤ 28 →
      (fun x => setMonthPlus x 1)^[12] dt = ⟨dt.year + 1, dt.month, dt.day⟩ ∧
      setYearPlus dt 1 = ⟨dt.year + 1, dt.month, dt.day⟩) := by
  refine ⟨⟨?_, congrArg some (setDatePlus_eq_spec dt 14 hv)⟩, fun h28 =>
    ⟨monthStep_twelve dt hv h28, setYearPlus_of_day_le dt 1 h28⟩⟩
  show some (setDatePlus (setDatePlus dt 7) 7) = some (specAddDays 14 dt)
  rw [setDatePlus_twice dt 7 7 hv]
  exact congrArg some (setDatePlus_eq_spec dt 14 hv)

theorem C8_witness :
    ValidDate ⟨2025, 4, 15⟩ ∧
    (((calculateNextRecurrence ⟨2025, 4, 15⟩ (some "weekly")).bind
        (fun d2 => calculateNextRecurrence d2 (some "weekly")) =
      some (specAddDays 14 ⟨2025, 4, 15⟩) ∧
     calculateNextRecurrence ⟨2025, 4, 15⟩ (some "biweekly") =
      some (specAddDays 14 ⟨2025, 4, 15⟩)) ∧
    ((⟨2025, 4, 15⟩ : CivilDate).day ≤ 28 →
      (fun x => setMonthPlus x 1)^[12] (⟨2025, 4, 15⟩ : CivilDate) =
        ⟨2025 + 1, 4, 15⟩ ∧
      setYearPlus ⟨2025, 4, 15⟩ 1 = ⟨2025 + 1, 4, 15⟩)) :=
  ⟨by decide, C8_recurrence_composition ⟨2025, 4, 15⟩ (by decide)⟩

theorem known_next_isSome (d : CivilDate) (rule : String) (h : rule ∈ knownRecurrences) :
    (calculateNextRecurrence d (some rule)).isSome := by
  simp only [knownRecurrences, List.mem_cons, List.not_mem_nil, or_false] at h
  rcases h with rfl | rfl | rfl | rfl | rfl | rfl <;> rfl

theorem completedRow_due_date (r : Reminder) (notes : Option String) (now : Int) :
    (completedRow r notes now).due_date = r.due_date := rfl

theorem completeReminder_of_find (db : List Reminder) (userId id : Nat)
    (notes : Option String) (now : Int) (freshId : Nat) (r : Reminder)
    (hfind : db.find? (fun s => s.id == id && s.user_id == userId) = some r) :
    completeReminder db userId id notes now freshId =
      ((match calculateNextRecurrence r.due_date r.recurrence with
        | some nd =>
          db.map (fun s =>
            if s.id == id && s.user_id == userId then completedRow r notes now else s)
            ++ [successorReminder freshId userId (completedRow r notes now) nd]
        | none =>
          db.map (fun s =>
            if s.id == id && s.user_id == userId then completedRow r notes now else s)),
       some (completedRow r notes now)) := by
  simp only [completeReminder, hfind]
  rcases hrec : r.recurrence with _ | rule
  · rfl
  · rcases hnext : calculateNextRecurrence r.due_date (some rule) with _ | nd <;>
      simp only [completedRow_due_date, hnext]

/-- C6: completing a reminder found by id and owner sets its status to
`completed` while retaining the row; when its recurrence is a recognized
rule the route creates exactly one pending successor whose due date is the
computed next occurrence and which copies title, description, contact id,
type, priority, recurrence and notification settings; a null or unknown
recurrence creates no successor. -/
theorem C6_completion_recurrence (db : List Reminder) (userId id : Nat)
    (notes : Option String) (now : Int) (freshId : Nat) (r : Reminder)
    (hfind : db.find? (fun s => s.id == id && s.user_id == userId) = some r) :
    ((completeReminder db userId id notes now freshId).2.map Reminder.status =
        some "completed" ∧
      (completeReminder db userId id notes now freshId).2.map Reminder.title =
        some r.title ∧
      ∃ o ∈ (completeReminder db userId id notes now freshId).1,
        o.id = r.id ∧ o.user_id = r.user_id ∧ o.status = "completed" ∧
        o.title = r.title ∧ o.due_date = r.due_date) ∧
    db.length ≤ (completeReminder db userId id notes now freshId).1.length ∧
    (∀ rule, r.recurrence = some rule → rule ∈ knownRecurrences →
      ∃ nd, calculateNextRecurrence r.due_date (some rule) = some nd ∧
        (completeReminder db userId id notes now freshId).1.length = db.length + 1 ∧
        ∃ succ, (completeReminder db userId id notes now freshId).1.getLast? =
            some succ ∧
          succ.status = "pending" ∧ succ.due_date = nd ∧ succ.title = r.title ∧
          succ.description = r.description ∧ succ.contact_id = r.contact_id ∧
          succ.type = r.type ∧ succ.priority = r.priority ∧
          succ.recurrence = r.recurrence ∧
          succ.notification_minutes = r.notification_minutes) ∧
    (r.recurrence = none →
      (completeReminder db userId id notes now freshId).1.length = db.length) ∧
    (∀ rule, r.recurrence = some rule → rule ∉ knownRecurrences →
      (completeReminder db userId id notes now freshId).1.length = db.length) := by
  have hpred := List.find?_some hfind
  have hmem : r ∈ db := List.mem_of_find?_eq_some hfind
  rw [completeReminder_of_find db userId id notes now freshId r hfind]
  have humem : completedRow r notes now ∈
      db.map (fun s =>
        if s.id == id && s.user_id == userId then completedRow r notes now else s) := by
    refine List.mem_map.mpr ⟨r, hmem, ?_⟩
    rw [if_pos hpred]
  constructor
  · rcases hnext : calculateNextRecurrence r.due_date r.recurrence with _ | nd
    · exact ⟨rfl, rfl, completedRow r notes now, humem, rfl, rfl, rfl, rfl, rfl⟩
    · exact ⟨rfl, rfl, completedRow r notes now,
        List.mem_append_left _ humem, rfl, rfl, rfl, rfl, rfl⟩
  constructor
  · rcases hnext : calculateNextRecurrence r.due_date r.recurrence with _ | nd <;> simp
  refine ⟨?_, ?_, ?_⟩
  · intro rule hrule hknown
    have hsome := known_next_isSome r.due_date rule hknown
    rw [hrule]
    rcases hnext : calculateNextRecurrence r.due_date (some rule) with _ | nd
    · rw [hnext] at hsome
      simp at hsome
    · refine ⟨nd, rfl, by simp, ?_⟩
      refine ⟨successorReminder freshId userId (completedRow r notes now) nd, ?_,
        rfl, rfl, rfl, rfl, rfl, rfl, rfl, hrule ▸ rfl, rfl⟩
      show (List.map _ db ++
        [successorReminder freshId userId (completedRow r notes now) nd]).getLast? = _
      rw [List.getLast?_concat]
  · intro hrec
    rw [hrec]
    simp [calculateNextRecurrence]
  · intro rule hrule hunknown
    rw [hrule, calculateNextRecurrence_unknown r.due_date rule hunknown]
    simp

theorem C6_witness :
    [demoReminder].find? (fun s => s.id == 1 && s.user_id == 7) = some demoReminder ∧
    (((completeReminder [demoReminder] 7 1 none 5 2).2.map Reminder.status =
        some "completed" ∧
      (completeReminder [demoReminder] 7 1 none 5 2).2.map Reminder.title =
        some demoReminder.title ∧
      ∃ o ∈ (completeReminder [demoReminder] 7 1 none 5 2).1,
        o.id = demoReminder.id ∧ o.user_id = demoReminder.user_id ∧
        o.status = "completed" ∧ o.title = demoReminder.title ∧
        o.due_date = demoReminder.due_date) ∧
    [demoReminder].length ≤ (completeReminder [demoReminder] 7 1 none 5 2).1.length ∧
    (∀ rule, demoReminder.recurrence = some rule → rule ∈ knownRecurrences →
      ∃ nd, calculateNextRecurrence demoReminder.due_date (some rule) = some nd ∧
        (completeReminder [demoReminder] 7 1 none 5 2).1.length =
          [demoReminder].length + 1 ∧
        ∃ succ, (completeReminder [demoReminder] 7 1 none 5 2).1.getLast? =
            some succ ∧
          succ.status = "pending" ∧ succ.due_date = nd ∧
          succ.title = demoReminder.title ∧
          succ.description = demoReminder.description ∧
          succ.contact_id = demoReminder.contact_id ∧
          succ.type = demoReminder.type ∧ succ.priority = demoReminder.priority ∧
          succ.recurrence = demoReminder.recurrence ∧
          succ.notification_minutes = demoReminder.notification_minutes) ∧
    (demoReminder.recurrence = none →
      (completeReminder [demoReminder] 7 1 none 5 2).1.length = [demoReminder].length) ∧
    (∀ rule, demoReminder.recurrence = some rule → rule ∉ knownRecurrences →
      (completeReminder [demoReminder] 7 1 none 5 2).1.length =
        [demoReminder].length)) :=
  ⟨by decide, C6_completion_recurrence [demoReminder] 7 1 none 5 2 demoReminder (by decide)⟩

theorem length_filter_partition {α : Type} (l : List α) (p : α → Bool) :
    l.length = (l.filter p).length + (l.filter (fun c => !p c)).length := by
  induction l with
  | nil => rfl
  | cons a t ih => by_cases h : p a <;> simp [List.filter_cons, h, ih] <;> omega

/-- C4: whenever the synchronous import replies with its counters, every
source row lands in exactly one bucket: imported plus duplicates plus
errors equals the total row count, the reported total is the input size,
and the skipped counter coincides with the duplicates. -/
theorem C4_row_accounting (lim : ContactLimitInfo) (userId : Nat)
    (m : ColumnMappings) (cat : String) (skipDuplicates : Bool)
    (existingEmails existingPhones : List String) (rows : List Row)
    (imported total skipped duplicates errors : Nat)
    (hok : spreadsheetImport lim userId m cat skipDuplicates existingEmails
        existingPhones rows = .ok imported total skipped duplicates errors) :
    imported + duplicates + errors = total ∧ total = rows.length ∧
    skipped = duplicates := by
  have hpart : (rows.map (rowToContact userId m cat)).length =
      ((rows.map (rowToContact userId m cat)).filter (fun c => unidentifiable c)).length +
        ((rows.map (rowToContact userId m cat)).filter
          (fun c => !unidentifiable c)).length :=
    length_filter_partition _ _
  have hdup : (importContacts userId m cat rows).length =
      ((importContacts userId m cat rows).filter
          (fun c => isDupe existingEmails existingPhones c)).length +
        ((importContacts userId m cat rows).filter
          (fun c => !isDupe existingEmails existingPhones c)).length :=
    length_filter_partition _ _
  by_cases hlim : rows.length > lim.remaining
  · rw [spreadsheetImport, if_pos hlim] at hok
    exact absurd hok (by simp)
  · rw [spreadsheetImport, if_neg hlim] at hok
    rw [List.length_map] at hpart
    unfold importContacts at hdup
    cases skipDuplicates <;>
      simp only [ImportResponse.ok.injEq, Bool.false_eq_true,
        if_true, if_false, ite_true, ite_false, importContacts, importErrorCount] at hok <;>
      obtain ⟨h1, h2, h3, h4, h5⟩ := hok <;>
      omega

theorem C4_witness :
    spreadsheetImport ⟨0, 250000, 250000⟩ 7 scenarioMappings "Lead" true
        ["a@x.com"] []
        ([[("Name", "Alice"), ("Email", "a@x.com")],
          [("Name", "Bob"), ("Email", "b@x.com")],
          [("Email", " ")]] : List Row) = .ok 1 3 1 1 1 ∧
    (1 + 1 + 1 = 3 ∧
      3 = ([[("Name", "Alice"), ("Email", "a@x.com")],
            [("Name", "Bob"), ("Email", "b@x.com")],
            [("Email", " ")]] : List Row).length ∧
      1 = 1) :=
  ⟨by decide,
    C4_row_accounting ⟨0, 250000, 250000⟩ 7 scenarioMappings "Lead" true
      ["a@x.com"] []
      ([[("Name", "Alice"), ("Email", "a@x.com")],
        [("Name", "Bob"), ("Email", "b@x.com")],
        [("Email", " ")]] : List Row) 1 3 1 1 1 (by decide)⟩

/-- C1 counterexample: in the §8.6 scenario (base plan, 249999 of 250000
used, five rows of which one duplicates an existing email,
skipDuplicates=true) the synchronous import route rejects the request
wholesale with `CONTACT_LIMIT_EXCEEDED` — the headroom check compares the
raw row count (5, duplicates included) against remaining (1) before any
deduplication — so the response claimed in the spec (`imported:1,
duplicates:1, errors:0, skipped-by-limit:3`) is not produced and nothing
is inserted. -/
theorem C1_counterexample :
    spreadsheetImport scenarioLimit 7 scenarioMappings "Lead" true
        ["a@x.com"] [] scenarioRows = .limitExceeded 1 5 ∧
    spreadsheetImport scenarioLimit 7 scenarioMappings "Lead" true
        ["a@x.com"] [] scenarioRows ≠ .ok 1 5 3 1 0 :=
  ⟨by decide, by decide⟩

/-- C1 amended: the synchronous spreadsheet import rejects wholesale with
`CONTACT_LIMIT_EXCEEDED` whenever the raw parsed row count exceeds the
remaining headroom (the check precedes deduplication, so duplicates count
against the requested size and the §8.6 scenario is rejected with nothing
inserted); truncation-to-remaining exists only on the asynchronous upload
path, which performs no duplicate detection: with a nonzero remaining it
inserts the first `min(remaining, validRows)` transformed rows and reports
`skipped = total - imported`. -/
theorem C1_amended (lim alim : ContactLimitInfo) (userId : Nat)
    (m am : ColumnMappings) (cat : String) (sd : Bool)
    (existingEmails existingPhones : List String) (rows arows : List Row)
    (imported total skipped : Nat)
    (hover : rows.length > lim.remaining)
    (hz : alim.remaining ≠ 0)
    (ha : processSpreadsheetResult (some alim) userId am arows =
      .spreadsheet imported total skipped) :
    spreadsheetImport lim userId m cat sd existingEmails existingPhones rows =
      .limitExceeded lim.remaining rows.length ∧
    imported = min alim.remaining
      ((arows.map (rowToContactAsync userId am)).filter
        (fun c => !unidentifiable c)).length ∧
    total = arows.length ∧ skipped = arows.length - imported := by
  constructor
  · rw [spreadsheetImport, if_pos hover]
  · rw [processSpreadsheetResult] at ha
    simp only [if_neg hz] at ha
    split at ha
    · simp only [JobResult.spreadsheet.injEq] at ha
      obtain ⟨h1, h2, h3⟩ := ha
      rw [List.length_take] at h1 h3
      exact ⟨h1.symm, h2.symm, by omega⟩
    · exact absurd ha (by simp)

theorem C1_witness :
    scenarioRows.length > scenarioLimit.remaining ∧
    scenarioLimit.remaining ≠ 0 ∧
    processSpreadsheetResult (some scenarioLimit) 7 scenarioMappings scenarioRows =
      .spreadsheet 1 5 4 ∧
    (spreadsheetImport scenarioLimit 7 scenarioMappings "Lead" true
        ["a@x.com"] [] scenarioRows = .limitExceeded scenarioLimit.remaining
        scenarioRows.length ∧
      1 = min scenarioLimit.remaining
        ((scenarioRows.map (rowToContactAsync 7 scenarioMappings)).filter
          (fun c => !unidentifiable c)).length ∧
      5 = scenarioRows.length ∧ 4 = scenarioRows.length - 1) :=
  ⟨by decide, by decide, by decide,
    C1_amended scenarioLimit scenarioLimit 7 scenarioMappings scenarioMappings
      "Lead" true ["a@x.com"] [] scenarioRows scenarioRows 1 5 4
      (by decide) (by decide) (by decide)⟩

theorem planLimits_getD_eq_spec (plan : Option String) :
    (planLimits (plan.getD "free")).getD 50 = specPlanMax plan := by
  rcases plan with _ | s
  · rfl
  · by_cases h1 : s = "free"
    · subst h1; rfl
    · by_cases h2 : s = "trial"
      · subst h2; rfl
      · by_cases h3 : s = "base"
        · subst h3; rfl
        · by_cases h4 : s = "enterprise"
          · subst h4; rfl
          · have hp : planLimits s = none := by
              unfold planLimits; split <;> simp_all
            have hs : specPlanMax (some s) = 50 := by
              unfold specPlanMax; split <;> simp_all
            simp only [Option.getD_some, hp, hs]
            rfl

theorem maxContactsFor_eq_spec (profile : Profile) :
    maxContactsFor (some profile) = specPlanMax profile.subscription_plan :=
  planLimits_getD_eq_spec profile.subscription_plan

theorem checkContactLimit_of_ge (profile : Profile)
    (h : specPlanMax profile.subscription_plan ≤ profile.contact_count) :
    checkContactLimit (some profile) = .error .CONTACT_LIMIT_REACHED := by
  unfold checkContactLimit
  rw [maxContactsFor_eq_spec]
  simp only [Option.map_some', Option.getD_some]
  rw [if_pos h]

theorem checkContactLimit_of_lt (profile : Profile)
    (h : profile.contact_count < specPlanMax profile.subscription_plan) :
    checkContactLimit (some profile) =
      .ok ⟨profile.contact_count, specPlanMax profile.subscription_plan,
        specPlanMax profile.subscription_plan - profile.contact_count⟩ := by
  unfold checkContactLimit
  rw [maxContactsFor_eq_spec]
  simp only [Option.map_some', Option.getD_some]
  rw [if_neg (by omega)]

/-- C2 counterexample: a free-plan tenant holding 50 of 50 contacts has
zero remaining headroom and the quota middleware rejects any creation, yet
the authenticated namecard upload path — whose middleware chain contains no
quota check — still creates one contact, so it is not true that every
authenticated contact-creating request with N exceeding `remaining` is
rejected with no contact inserted. -/
theorem C2_counterexample :
    checkContactLimit (some ⟨some "free", 50⟩) = .error .CONTACT_LIMIT_REACHED ∧
    namecardInsertedContacts (some ⟨some "free", 50⟩) true = 1 :=
  ⟨rfl, rfl⟩

/-- C2 amended: for the routes guarded by `checkContactLimit`, the ceiling
comes from the static plan table (free/trial 50, base 250000, enterprise
1000000, unknown or missing plan falling back to free), remaining equals
ceiling minus current count, and a request for N new contacts is admitted
only when N is within the remaining headroom, a rejection inserting
nothing; rejections beyond headroom carry a quota error except that a bulk
request larger than the 500-row cap is rejected with the validation error
`TOO_MANY_CONTACTS`; the namecard upload path, however, creates its contact
without any quota check. -/
theorem C2_amended (profile : Profile) (n : Nat) (v d : Bool) :
    maxContactsFor (some profile) = specPlanMax profile.subscription_plan ∧
    (checkContactLimit (some profile) = .error .CONTACT_LIMIT_REACHED ↔
      specPlanMax profile.subscription_plan ≤ profile.contact_count) ∧
    (profile.contact_count < specPlanMax profile.subscription_plan →
      checkContactLimit (some profile) =
        .ok ⟨profile.contact_count, specPlanMax profile.subscription_plan,
          specPlanMax profile.subscription_plan - profile.contact_count⟩) ∧
    (createContact (some profile) v d = .ok 1 →
      profile.contact_count < specPlanMax profile.subscription_plan) ∧
    (specPlanMax profile.subscription_plan ≤ profile.contact_count →
      createContact (some profile) v d = .error .CONTACT_LIMIT_REACHED) ∧
    (1 ≤ n → n ≤ 500 →
      (bulkCreateContacts (some profile) n = .ok n ↔
        n ≤ specPlanMax profile.subscription_plan - profile.contact_count)) ∧
    (1 ≤ n → n ≤ 500 →
      n > specPlanMax profile.subscription_plan - profile.contact_count →
      bulkCreateContacts (some profile) n = .error .CONTACT_LIMIT_EXCEEDED ∨
      bulkCreateContacts (some profile) n = .error .CONTACT_LIMIT_REACHED) ∧
    (n > 500 → profile.contact_count < specPlanMax profile.subscription_plan →
      bulkCreateContacts (some profile) n = .error .TOO_MANY_CONTACTS) ∧
    namecardInsertedContacts (some profile) true = 1 := by
  refine ⟨maxContactsFor_eq_spec profile, ?_, fun hlt =>
    checkContactLimit_of_lt profile hlt, ?_, ?_, ?_, ?_, ?_, rfl⟩
  · constructor
    · intro herr
      by_contra hlt
      rw [checkContactLimit_of_lt profile (by omega)] at herr
      exact absurd herr (by simp)
    · exact checkContactLimit_of_ge profile
  · intro hok
    by_contra hge
    unfold createContact at hok
    rw [checkContactLimit_of_ge profile (by omega)] at hok
    exact absurd hok (by simp)
  · intro hge
    unfold createContact
    rw [checkContactLimit_of_ge profile hge]
  · intro hn1 hn500
    constructor
    · intro hok
      by_contra hgt
      unfold bulkCreateContacts at hok
      by_cases hge : specPlanMax profile.subscription_plan ≤ profile.contact_count
      · rw [checkContactLimit_of_ge profile hge] at hok
        exact absurd hok (by simp)
      · rw [checkContactLimit_of_lt profile (by omega)] at hok
        simp only [] at hok
        rw [if_neg (by omega), if_neg (by omega), if_pos (by omega)] at hok
        exact absurd hok (by simp)
    · intro hle
      unfold bulkCreateContacts
      rw [checkContactLimit_of_lt profile (by omega)]
      simp only []
      rw [if_neg (by omega), if_neg (by omega), if_neg (by omega)]
  · intro hn1 hn500 hgt
    by_cases hge : specPlanMax profile.subscription_plan ≤ profile.contact_count
    · right
      unfold bulkCreateContacts
      rw [checkContactLimit_of_ge profile hge]
    · left
      unfold bulkCreateContacts
      rw [checkContactLimit_of_lt profile (by omega)]
      simp only []
      rw [if_neg (by omega), if_neg (by omega), if_pos (by omega)]
  · intro hn500 hlt
    unfold bulkCreateContacts
    rw [checkContactLimit_of_lt profile hlt]
    simp only []
    rw [if_neg (by omega), if_pos (by omega)]

theorem C2_witness :
    (maxContactsFor (some ⟨some "base", 10⟩) =
        specPlanMax (Profile.mk (some "base") 10).subscription_plan ∧
      (checkContactLimit (some ⟨some "base", 10⟩) = .error .CONTACT_LIMIT_REACHED ↔
        specPlanMax (Profile.mk (some "base") 10).subscription_plan ≤
          (Profile.mk (some "base") 10).contact_count) ∧
      ((Profile.mk (some "base") 10).contact_count <
          specPlanMax (Profile.mk (some "base") 10).subscription_plan →
        checkContactLimit (some ⟨some "base", 10⟩) =
          .ok ⟨(Profile.mk (some "base") 10).contact_count,
            specPlanMax (Profile.mk (some "base") 10).subscription_plan,
            specPlanMax (Profile.mk (some "base") 10).subscription_plan -
              (Profile.mk (some "base") 10).contact_count⟩) ∧
      (createContact (some ⟨some "base", 10⟩) true false = .ok 1 →
        (Profile.mk (some "base") 10).contact_count <
          specPlanMax (Profile.mk (some "base") 10).subscription_plan) ∧
      (specPlanMax (Profile.mk (some "base") 10).subscription_plan ≤
          (Profile.mk (some "base") 10).contact_count →
        createContact (some ⟨some "base", 10⟩) true false =
          .error .CONTACT_LIMIT_REACHED) ∧
      (1 ≤ 3 → 3 ≤ 500 →
        (bulkCreateContacts (some ⟨some "base", 10⟩) 3 = .ok 3 ↔
          3 ≤ specPlanMax (Profile.mk (some "base") 10).subscription_plan -
            (Profile.mk (some "base") 10).contact_count)) ∧
      (1 ≤ 3 → 3 ≤ 500 →
        3 > specPlanMax (Profile.mk (some "base") 10).subscription_plan -
          (Profile.mk (some "base") 10).contact_count →
        bulkCreateContacts (some ⟨some "base", 10⟩) 3 =
          .error .CONTACT_LIMIT_EXCEEDED ∨
        bulkCreateContacts (some ⟨some "base", 10⟩) 3 =
          .error .CONTACT_LIMIT_REACHED) ∧
      (3 > 500 → (Profile.mk (some "base") 10).contact_count <
          specPlanMax (Profile.mk (some "base") 10).subscription_plan →
        bulkCreateContacts (some ⟨some "base", 10⟩) 3 =
          .error .TOO_MANY_CONTACTS) ∧
      namecardInsertedContacts (some ⟨some "base", 10⟩) true = 1) :=
  C2_amended ⟨some "base", 10⟩ 3 true false

/-- C3 counterexample: the read-modify-write fallback of
`incrementContactCount` loses an update under the interleaving in which
both callers read the counter before either writes (two commits of 1 from
counter 0 end at 1, not 2); and because `checkContactLimit` reads the
counter separately from the commit, two concurrent admitted creations
against a tenant at 49 of 50 both pass the check and drive the counter to
51 — above the ceiling, with more than `min(N, max - c) = 1` success. -/
theorem C3_counterexample :
    Interleaving (fallbackCommitProg (0 : Fin 2) 1) (fallbackCommitProg (1 : Fin 2) 1)
      lostSchedule ∧
    (execCounter ⟨0, fun _ => 0⟩ lostSchedule).counter = 1 ∧
    Interleaving (createRequestProg (0 : Fin 2) 50) (createRequestProg (1 : Fin 2) 50)
      racedSchedule ∧
    (execCounter ⟨49, fun _ => 0⟩ racedSchedule).counter = 51 :=
  ⟨.left (.right (.left (.right .nil))), rfl,
   .left (.right (.left (.right .nil))), rfl⟩

/-- C3 amended: only the RPC path of the commit is a single atomic
increment at the store: any interleaving of two concurrent RPC commits adds
both increments and no update is lost.  The fallback path is a
read-modify-write from application memory and the admission check is a
separate read, so neither the ceiling bound nor the `min(N, max - c)`
success count holds for the code as written (see the counterexample). -/
theorem C3_amended (k1 k2 : Nat) (s : CounterState 2)
    (sched : List (Fin 2 × CounterOp))
    (h : Interleaving (rpcCommitProg 0 k1) (rpcCommitProg 1 k2) sched) :
    (execCounter s sched).counter = s.counter + k1 + k2 := by
  unfold rpcCommitProg at h
  cases h with
  | left h1 =>
    cases h1 with
    | right h2 =>
      cases h2
      simp only [execCounter, stepCounter]
  | right h1 =>
    cases h1 with
    | left h2 =>
      cases h2
      simp only [execCounter, stepCounter]
      omega

theorem C3_witness :
    Interleaving (rpcCommitProg (0 : Fin 2) 2) (rpcCommitProg (1 : Fin 2) 3)
      [((0 : Fin 2), CounterOp.rpcIncrement 2),
       ((1 : Fin 2), CounterOp.rpcIncrement 3)] ∧
    (execCounter ⟨10, fun _ => 0⟩
      [((0 : Fin 2), CounterOp.rpcIncrement 2),
       ((1 : Fin 2), CounterOp.rpcIncrement 3)]).counter = 10 + 2 + 3 :=
  ⟨.left (.right .nil),
    C3_amended 2 3 ⟨10, fun _ => 0⟩ _ (.left (.right .nil))⟩

theorem filter_keep_replicate (w t now : Int) (i : Nat) (hlt : now - w < t) :
    (List.replicate i t).filter
      (fun u => !(decide (0 ≤ u) && decide (u ≤ now - w))) = List.replicate i t := by
  have hb : (!(decide (0 ≤ t) && decide (t ≤ now - w))) = true := by
    have : ¬(t ≤ now - w) := by omega
    simp [this]
  induction i with
  | zero => rfl
  | succ n ih => simp only [List.replicate_succ, List.filter_cons, hb, if_true, ih]

theorem filter_drop_replicate (w t now : Int) (i : Nat) (h0 : 0 ≤ t)
    (hle : t ≤ now - w) :
    (List.replicate i t).filter
      (fun u => !(decide (0 ≤ u) && decide (u ≤ now - w))) = [] := by
  have hb : (!(decide (0 ≤ t) && decide (t ≤ now - w))) = false := by
    simp [h0, hle]
  induction i with
  | zero => rfl
  | succ n ih =>
    simp only [List.replicate_succ, List.filter_cons, hb, Bool.false_eq_true,
      if_false, ih]

theorem isAllowed_replicate (w t : Int) (maxR i : Nat) (hw : 0 < w) (hi : i < maxR) :
    isAllowed ⟨w, maxR, List.replicate i t⟩ t =
      ((true, maxR - i - 1), ⟨w, maxR, List.replicate (i + 1) t⟩) := by
  unfold isAllowed
  simp only []
  rw [filter_keep_replicate w t t i (by omega)]
  rw [if_neg (by rw [List.length_replicate]; omega)]
  rw [List.length_replicate, ← List.replicate_succ']

theorem runCalls_replicate (w t : Int) (maxR : Nat) (hw : 0 < w) :
    ∀ i j, i + j ≤ maxR →
      (runCalls ⟨w, maxR, List.replicate j t⟩ (List.replicate i t)).2 =
        ⟨w, maxR, List.replicate (j + i) t⟩ ∧
      ((runCalls ⟨w, maxR, List.replicate j t⟩ (List.replicate i t)).1.all
        (fun r => r.1)) = true
  | 0, j, h => by constructor <;> simp [runCalls]
  | n + 1, j, h => by
    rw [List.replicate_succ]
    unfold runCalls
    rw [isAllowed_replicate w t maxR j hw (by omega)]
    have ih := runCalls_replicate w t maxR hw n (j + 1) (by omega)
    simp only []
    constructor
    · rw [ih.1]
      have : j + 1 + n = j + (n + 1) := by omega
      rw [this]
    · simp only [List.all_cons, ih.2, Bool.and_true]

/-- C9: the sliding-window limiter first purges the scores outside the
trailing window, admits a call exactly when the surviving count is strictly
below the ceiling — recording the new timestamp and returning
`remaining = max - count - 1` — and otherwise returns `allowed = false`
with `remaining = 0`; consequently a burst of `max` calls inside one window
all succeed, a further call within the same window is rejected, and a call
a full window later succeeds again. -/
theorem C9_sliding_window (rl : SlidingWindow) (now w t δ : Int) (maxR : Nat)
    (hw : 0 < w) (hmax : 0 < maxR) (_hδ0 : 0 ≤ δ) (hδw : δ < w) (ht : 0 ≤ t) :
    ((isAllowed rl now).1.1 = true ↔
      (rl.entries.filter
        (fun u => !(decide (0 ≤ u) && decide (u ≤ now - rl.windowMs)))).length <
        rl.max) ∧
    ((isAllowed rl now).1.1 = true →
      (isAllowed rl now).1.2 =
        rl.max - (rl.entries.filter
          (fun u => !(decide (0 ≤ u) && decide (u ≤ now - rl.windowMs)))).length
          - 1) ∧
    ((isAllowed rl now).1.1 = false → (isAllowed rl now).1.2 = 0) ∧
    ((runCalls ⟨w, maxR, []⟩ (List.replicate maxR t)).1.all (fun r => r.1) = true) ∧
    (isAllowed ⟨w, maxR, List.replicate maxR t⟩ (t + δ)).1 = (false, 0) ∧
    (isAllowed ⟨w, maxR, List.replicate maxR t⟩ (t + w)).1 = (true, maxR - 1) := by
  refine ⟨?_, ?_, ?_, ?_, ?_, ?_⟩
  · unfold isAllowed
    by_cases hc : (rl.entries.filter
        (fun u => !(decide (0 ≤ u) && decide (u ≤ now - rl.windowMs)))).length ≥ rl.max
    · rw [if_pos hc]
      simp only []
      constructor
      · intro hfalse
        exact absurd hfalse (by simp)
      · intro hlt
        omega
    · rw [if_neg hc]
      simp only []
      constructor
      · intro _
        omega
      · intro _
        trivial
  · unfold isAllowed
    by_cases hc : (rl.entries.filter
        (fun u => !(decide (0 ≤ u) && decide (u ≤ now - rl.windowMs)))).length ≥ rl.max
    · rw [if_pos hc]
      intro hfalse
      exact absurd hfalse (by simp)
    · rw [if_neg hc]
      intro _
      rfl
  · unfold isAllowed
    by_cases hc : (rl.entries.filter
        (fun u => !(decide (0 ≤ u) && decide (u ≤ now - rl.windowMs)))).length ≥ rl.max
    · rw [if_pos hc]
      intro _
      rfl
    · rw [if_neg hc]
      intro hfalse
      exact absurd hfalse (by simp)
  · have h := runCalls_replicate w t maxR hw maxR 0 (by omega)
    have h0 : (List.replicate 0 t) = ([] : List Int) := rfl
    rw [h0] at h
    exact h.2
  · unfold isAllowed
    simp only []
    rw [filter_keep_replicate w t (t + δ) maxR (by omega)]
    rw [if_pos (by rw [List.length_replicate])]
  · unfold isAllowed
    simp only []
    rw [filter_drop_replicate w t (t + w) maxR ht (by omega)]
    rw [if_neg (by simp only [List.length_nil]; omega)]
    simp only [List.length_nil, Nat.sub_zero]

theorem C9_witness :
    0 < (60000 : Int) ∧ 0 < 5 ∧ (0 : Int) ≤ 1 ∧ (1 : Int) < 60000 ∧ (0 : Int) ≤ 0 ∧
    (((isAllowed ⟨60000, 5, [0]⟩ 1).1.1 = true ↔
      (([0] : List Int).filter
        (fun u => !(decide (0 ≤ u) &&
          decide (u ≤ 1 - (⟨60000, 5, [0]⟩ : SlidingWindow).windowMs)))).length <
        (⟨60000, 5, [0]⟩ : SlidingWindow).max) ∧
    ((isAllowed ⟨60000, 5, [0]⟩ 1).1.1 = true →
      (isAllowed ⟨60000, 5, [0]⟩ 1).1.2 =
        (⟨60000, 5, [0]⟩ : SlidingWindow).max -
          (([0] : List Int).filter
            (fun u => !(decide (0 ≤ u) &&
              decide (u ≤ 1 - (⟨60000, 5, [0]⟩ : SlidingWindow).windowMs)))).length
          - 1) ∧
    ((isAllowed ⟨60000, 5, [0]⟩ 1).1.1 = false →
      (isAllowed ⟨60000, 5, [0]⟩ 1).1.2 = 0) ∧
    ((runCalls ⟨60000, 5, []⟩ (List.replicate 5 0)).1.all (fun r => r.1) = true) ∧
    (isAllowed ⟨60000, 5, List.replicate 5 0⟩ (0 + 1)).1 = (false, 0) ∧
    (isAllowed ⟨60000, 5, List.replicate 5 0⟩ (0 + 60000)).1 = (true, 5 - 1)) :=
  ⟨by decide, by decide, by decide, by decide, by decide,
    C9_sliding_window ⟨60000, 5, [0]⟩ 1 60000 0 1 5
      (by decide) (by decide) (by decide) (by decide) (by decide)⟩

theorem getJob_createJob (m : JobMap) (id msg : String) (now : Int) :
    getJob (createJob m id msg now) id = some (newJob msg now) := by
  unfold getJob createJob jobSet
  rw [List.find?_cons_of_pos _ (by simp)]
  rfl

theorem terminalJobWrites_ok (c : Int) (a e : String) (i t s : Nat)
    (ct : Contact) (cf : Nat) :
    (terminalJobWrites c a e i t s ct cf).all terminalWriteOk = true := rfl

theorem getJob_none_of_not_mem (l : JobMap) (id : String)
    (h : id ∉ l.map Prod.fst) : getJob l id = none := by
  unfold getJob
  rw [List.find?_eq_none.mpr]
  · rfl
  · intro x hx hbeq
    exact h (List.mem_map.mpr ⟨x, hx, eq_of_beq hbeq⟩)

theorem getJob_sweepJobs (m : JobMap) (now : Int) (id : String)
    (hnd : (m.map Prod.fst).Nodup) :
    getJob (sweepJobs now m) id =
      match getJob m id with
      | none => none
      | some j => if j.createdAt < now - 3600000 then none else some j := by
  induction m with
  | nil => rfl
  | cons p rest ih =>
    rw [List.map_cons, List.nodup_cons] at hnd
    unfold sweepJobs at ih ⊢
    rw [List.filter_cons]
    by_cases hk : (p.1 == id) = true
    · have hget : getJob (p :: rest) id = some p.2 := by
        unfold getJob
        rw [List.find?_cons_of_pos (p := fun q : String × Job => q.1 == id) rest hk]
        rfl
      rw [hget]
      show _ = if p.2.createdAt < now - 3600000 then none else some p.2
      by_cases hold : p.2.createdAt < now - 3600000
      · rw [if_neg (by simp [hold]), if_pos hold]
        refine getJob_none_of_not_mem _ id (fun hmem => ?_)
        obtain ⟨x, hx, hxid⟩ := List.mem_map.mp hmem
        exact hnd.1 (eq_of_beq hk ▸ hxid ▸
          List.mem_map.mpr ⟨x, List.mem_of_mem_filter hx, rfl⟩)
      · rw [if_pos (by simp [hold]), if_neg hold]
        unfold getJob
        rw [List.find?_cons_of_pos (p := fun q : String × Job => q.1 == id) _ hk]
        rfl
    · have hget : getJob (p :: rest) id = getJob rest id := by
        unfold getJob
        rw [List.find?_cons_of_neg (p := fun q : String × Job => q.1 == id) rest hk]
      rw [hget, ← ih hnd.2]
      by_cases hold : p.2.createdAt < now - 3600000
      · rw [if_neg (by simp [hold])]
      · rw [if_pos (by simp [hold])]
        unfold getJob
        rw [List.find?_cons_of_neg (p := fun q : String × Job => q.1 == id) _ hk]

/-- C5: an upload job is created in status `processing` with progress 0 and
is retrievable under its id; every terminal write of the two pipelines sets
status `completed` or `failed` with progress forced to 100, a result
accompanying completion and an error accompanying failure; and the
15-minute sweep removes exactly the jobs whose `createdAt` lies more than
one hour before the sweep time, after which lookup returns not-found while
younger jobs stay retrievable. -/
theorem C5_job_lifecycle (m : JobMap) (id msg : String)
    (now sweepNow createdAt : Int) (analysisErr caughtErr : String)
    (imported total skipped : Nat) (contact : Contact) (confidence : Nat)
    (hnd : (m.map Prod.fst).Nodup) :
    getJob (createJob m id msg now) id = some (newJob msg now) ∧
    (newJob msg now).status = .processing ∧ (newJob msg now).progress = 0 ∧
    (terminalJobWrites createdAt analysisErr caughtErr imported total skipped
      contact confidence).all terminalWriteOk = true ∧
    getJob (sweepJobs sweepNow m) id =
      (match getJob m id with
       | none => none
       | some j => if j.createdAt < sweepNow - 3600000 then none else some j) :=
  ⟨getJob_createJob m id msg now, rfl, rfl,
    terminalJobWrites_ok createdAt analysisErr caughtErr imported total skipped
      contact confidence,
    getJob_sweepJobs m sweepNow id hnd⟩

theorem C5_witness :
    (([("a", demoJob)] : JobMap).map Prod.fst).Nodup ∧
    (getJob (createJob [("a", demoJob)] "a" "m" 0) "a" = some (newJob "m" 0) ∧
    (newJob "m" 0).status = .processing ∧ (newJob "m" 0).progress = 0 ∧
    (terminalJobWrites 0 "ae" "ce" 1 2 1
      ⟨7, "Alice", none, none, none, none, none, "Lead", none, "namecard_scan",
        "active"⟩ 80).all terminalWriteOk = true ∧
    getJob (sweepJobs 7200000 [("a", demoJob)]) "a" =
      (match getJob [("a", demoJob)] "a" with
       | none => none
       | some j => if j.createdAt < 7200000 - 3600000 then none else some j)) :=
  ⟨by decide,
    C5_job_lifecycle [("a", demoJob)] "a" "m" 0 7200000 0 "ae" "ce" 1 2 1
      ⟨7, "Alice", none, none, none, none, none, "Lead", none, "namecard_scan",
        "active"⟩ 80 (by decide)⟩

/-- C10: the job-status endpoint depends only on the job id, not on the
authenticated caller: any two authenticated users asking for a live job
receive the identical snapshot, the job map being shared across tenants. -/
theorem C10_status_not_tenant_scoped (m : JobMap) (jobId : String)
    (u1 u2 : AuthUser) (j : Job) (hlive : getJob m jobId = some j) :
    statusHandler m jobId u1 = statusHandler m jobId u2 ∧
    statusHandler m jobId u1 = .okSnapshot jobId j ∧
    statusHandler m jobId u2 = .okSnapshot jobId j := by
  unfold statusHandler
  rw [hlive]
  exact ⟨rfl, rfl, rfl⟩

theorem C10_witness :
    getJob [("a", demoJob)] "a" = some demoJob ∧
    (statusHandler [("a", demoJob)] "a" ⟨1⟩ = statusHandler [("a", demoJob)] "a" ⟨2⟩ ∧
    statusHandler [("a", demoJob)] "a" ⟨1⟩ = .okSnapshot "a" demoJob ∧
    statusHandler [("a", demoJob)] "a" ⟨2⟩ = .okSnapshot "a" demoJob) :=
  ⟨by decide,
    C10_status_not_tenant_scoped [("a", demoJob)] "a" ⟨1⟩ ⟨2⟩ demoJob (by decide)⟩
